import Mathlib

/-!
Verification of the sliding-window geometry calculator declared in
`tensorflow/core/kernels/ops_util.h`.

The header declares the Dimension Calculator entry points (`Get2dOutputSize`,
`Get2dOutputSizeVerbose`, `Get3dOutputSize`) and the Broadcast-Size Calculator
(`GetBroadcastSize`), and defines `IsInnerDimsSizeAligned` inline.  The bodies
of the declared functions live in a translation unit that is not part of this
source tree, so they are modelled here from the specification's algorithm
descriptions (§4.1, §4.2); `IsInnerDimsSizeAligned` is translated directly
from the header.  Machine integers (`int`, `int64`) are modelled as
unbounded integers, since all the stated properties are about the exact
integer arithmetic and none concerns overflow.
-/

deriving instance DecidableEq for Except

namespace tensorflow

/-- Error taxonomy of the structured status result: every malformed input is
reported as `InvalidArgument` (there is no other failure kind). -/
inductive ErrorCode where
  | InvalidArgument
deriving DecidableEq, Repr

/-- A structured success-or-failure result, standing for `tensorflow::Status`
together with the out-parameters of the original signatures: on success the
computed values are returned, on failure no output value is produced. -/
abbrev Status (α : Type) := Except ErrorCode α

/-- Modelled from the spec: the padding policies implemented by the Dimension
Calculator entry points (the `Padding` enumeration of
`tensorflow/core/util/padding.h` is not under src/).  `NO_PADDING` is the
VALID policy (no padding, output shrinks); `OUTPUT_PRESERVING` is the SAME
policy (pad so that the output extent is `ceil(input_extent / stride)`).
The spec's third policy, EXPLICIT, takes caller-supplied padding amounts and
is not exercised through these entry points, which accept no such amounts. -/
inductive PaddingPolicy where
  | NO_PADDING
  | OUTPUT_PRESERVING
deriving DecidableEq, Repr

/-- Per-axis result of the Dimension Calculator: the output extent and the
padding applied before (lower end) and after (upper end) the input. -/
structure AxisResult where
  output_extent : Int
  pad_before : Int
  pad_after : Int
deriving DecidableEq, Repr

/-- Exact-ceiling integer division for a positive divisor, as prescribed by
the spec: `ceil(a / b) = (a + b - 1) / b`.  Lean's `/` on `Int` rounds toward
negative infinity for a positive divisor, so this equals the mathematical
ceiling of `a / b` for every integer `a` whenever `0 < b`
(see `ceilDiv_lower` and `ceilDiv_upper`). -/
def ceilDiv (a b : Int) : Int := (a + b - 1) / b

/-- Modelled from the spec: the per-axis algorithm of the Dimension Calculator
(§4.1), whose implementation (`Get2dOutputSize` et al. in `ops_util.cc`) is
not under src/.  Validation first: a window or stride `≤ 0` fails with
`InvalidArgument`.  Under `OUTPUT_PRESERVING`:
`output_extent = ceil(input_extent / stride)`,
`total_padding = max(0, (output_extent - 1) * stride + window_extent -
input_extent)`, split as `pad_before = total_padding / 2` with `pad_after`
absorbing the odd remainder.  Under `NO_PADDING`:
`output_extent = ceil((input_extent - window_extent + 1) / stride)`, failing
with `InvalidArgument` when this would be negative, and both paddings zero. -/
def GetAxisOutputSize (input_extent window_extent stride : Int)
    (padding : PaddingPolicy) : Status AxisResult :=
  if window_extent ≤ 0 ∨ stride ≤ 0 then
    .error .InvalidArgument
  else
    match padding with
    | .OUTPUT_PRESERVING =>
      let output := ceilDiv input_extent stride
      let total_padding :=
        max 0 ((output - 1) * stride + window_extent - input_extent)
      let pad_before := total_padding / 2
      .ok ⟨output, pad_before, total_padding - pad_before⟩
    | .NO_PADDING =>
      let output := ceilDiv (input_extent - window_extent + 1) stride
      if output < 0 then .error .InvalidArgument
      else .ok ⟨output, 0, 0⟩

/-- Modelled from the spec: the compact 2-axis form.  Computes each axis
independently with the shared policy and reports, per axis, the output extent
and a single padding magnitude — the lower-end padding `pad_before`
(`pad_rows`, `pad_cols` in the original signature).  The result tuple is
`(new_height, new_width, pad_rows, pad_cols)`. -/
def Get2dOutputSize (in_height in_width filter_height filter_width
    row_stride col_stride : Int) (padding : PaddingPolicy) :
    Status (Int × Int × Int × Int) :=
  match GetAxisOutputSize in_height filter_height row_stride padding,
        GetAxisOutputSize in_width filter_width col_stride padding with
  | .ok r, .ok c =>
      .ok (r.output_extent, c.output_extent, r.pad_before, c.pad_before)
  | .error e, _ => .error e
  | .ok _, .error e => .error e

/-- Modelled from the spec: the verbose 2-axis form.  Same output extents as
`Get2dOutputSize`, but the padding of each axis is reported four-sided as
`(pad_top, pad_bottom, pad_left, pad_right)`, with any excess padding from an
odd total assigned to `pad_bottom` / `pad_right`.  The result tuple is
`(new_height, new_width, pad_top, pad_bottom, pad_left, pad_right)`. -/
def Get2dOutputSizeVerbose (in_height in_width filter_height filter_width
    row_stride col_stride : Int) (padding : PaddingPolicy) :
    Status (Int × Int × Int × Int × Int × Int) :=
  match GetAxisOutputSize in_height filter_height row_stride padding,
        GetAxisOutputSize in_width filter_width col_stride padding with
  | .ok r, .ok c =>
      .ok (r.output_extent, c.output_extent,
           r.pad_before, r.pad_after, c.pad_before, c.pad_after)
  | .error e, _ => .error e
  | .ok _, .error e => .error e

/-- Modelled from the spec: the per-axis sweep of the N-dimensional variant —
apply the single-axis Dimension Calculator to each `(input, window, stride)`
triple in order, failing as soon as one axis fails. -/
def axesResults (padding : PaddingPolicy) :
    List (Int × Int × Int) → Status (List AxisResult)
  | [] => .ok []
  | t :: rest =>
    match GetAxisOutputSize t.1 t.2.1 t.2.2 padding, axesResults padding rest with
    | .ok r, .ok rs => .ok (r :: rs)
    | .error e, _ => .error e
    | .ok _, .error e => .error e

/-- Modelled from the spec: the N-dimensional variant (§4.1) — ordered
sequences of inputs, windows and strides, validated to have equal lengths
(failing with `InvalidArgument` on mismatch), with one shared policy; returns
the parallel sequences of output extents and of lower-end paddings
(`pad_before`), one per axis. -/
def GetNdOutputSize (input window strides : List Int)
    (padding : PaddingPolicy) : Status (List Int × List Int) :=
  if input.length = window.length ∧ input.length = strides.length then
    match axesResults padding (input.zip (window.zip strides)) with
    | .ok rs => .ok (rs.map (fun r => r.output_extent),
                     rs.map (fun r => r.pad_before))
    | .error e => .error e
  else .error .InvalidArgument

/-- Modelled from the spec: `Get3dOutputSize`, the fixed 3-axis instance of
the N-dimensional variant (the original takes `std::array<int64, 3>`
arguments); populates the 3-D output extents and the padding applied at the
lower end of every dimension. -/
def Get3dOutputSize (input window strides : Int × Int × Int)
    (padding : PaddingPolicy) : Status (List Int × List Int) :=
  GetNdOutputSize [input.1, input.2.1, input.2.2]
    [window.1, window.2.1, window.2.2]
    [strides.1, strides.2.1, strides.2.2] padding

/-- Result of the Broadcast-Size Calculator: the input-index range
`[start_index, start_index + size)` that maps back from one output index. -/
structure BroadcastResult where
  start_index : Int
  size : Int
deriving DecidableEq, Repr

/-- Modelled from the spec: the Broadcast-Size Calculator algorithm (§4.2),
whose implementation (`GetBroadcastSize` in `ops_util.cc`) is not under src/.
`raw_start = index * stride - pad_size`, clipped below at 0; the raw end
`raw_start + ksize` is clipped above at `in_size`; a non-positive
`end - start` is reported as the valid empty result `size = 0`, never as an
error. -/
def GetBroadcastSize (index in_size ksize stride pad_size : Int) :
    BroadcastResult :=
  let raw_start := index * stride - pad_size
  let start_index := max 0 raw_start
  let raw_end := raw_start + ksize
  let end_index := min in_size raw_end
  let size := end_index - start_index
  ⟨start_index, if size ≤ 0 then 0 else size⟩

/-- A tensor-shape descriptor: the ordered list of per-axis element counts
(each a nonnegative machine integer, modelled as `Nat`). -/
structure TensorShape where
  dim_sizes : List Nat
deriving DecidableEq, Repr

/-- Number of dimensions of the shape (`TensorShape::dims`). -/
def TensorShape.dims (s : TensorShape) : Nat := s.dim_sizes.length

/-- Size of dimension `i` of the shape (`TensorShape::dim_size`). -/
def TensorShape.dim_size (s : TensorShape) (i : Nat) : Nat :=
  s.dim_sizes.getD i 0

/-- Total number of elements of the shape (`TensorShape::num_elements`):
the product of all dimension sizes. -/
def TensorShape.num_elements (s : TensorShape) : Nat := s.dim_sizes.prod

/-- Translated from `IsInnerDimsSizeAligned` in
`tensorflow/core/kernels/ops_util.h`: returns true iff the number of bytes
occupied by each dim-0 slice is a multiple of the alignment constant
`EIGEN_MAX_ALIGN_BYTES` (here the parameter `align`); `sizeofT` stands for
`sizeof(T)`.  A rank-0 shape or a zero-sized dimension 0 returns false
before any division is attempted. -/
def IsInnerDimsSizeAligned (sizeofT align : Nat) (s : TensorShape) : Bool :=
  if s.dims = 0 then false
  else
    let dim0_size := s.dim_size 0
    if dim0_size = 0 then false
    else
      let bytes_per_dim0 := (s.num_elements / dim0_size) * sizeofT
      bytes_per_dim0 % align = 0

/-- For a positive divisor, `ceilDiv a b * b` is at least `a`:
one half of the defining property of the integer ceiling of `a / b`. -/
theorem ceilDiv_le (a b : Int) (hb : 0 < b) : a ≤ ceilDiv a b * b := by
  have h0 := Int.ediv_add_emod (a + b - 1) b
  have h2 := Int.emod_lt_of_pos (a + b - 1) hb
  unfold ceilDiv
  linarith

/-- For a positive divisor, `(ceilDiv a b - 1) * b` is below `a`:
the other half of the defining property of the integer ceiling of `a / b`. -/
theorem ceilDiv_lt (a b : Int) (hb : 0 < b) : (ceilDiv a b - 1) * b < a := by
  have h0 := Int.ediv_add_emod (a + b - 1) b
  have h1 := Int.emod_nonneg (a + b - 1) hb.ne'
  unfold ceilDiv
  linarith

/-- The two `ceilDiv` bounds determine it uniquely. -/
theorem ceilDiv_unique (a b c : Int) (hb : 0 < b) (h1 : a ≤ c * b)
    (h2 : (c - 1) * b < a) : c = ceilDiv a b := by
  have u1 := ceilDiv_le a b hb
  have u2 := ceilDiv_lt a b hb
  by_contra hne
  rcases lt_or_gt_of_ne hne with h | h
  · have : c * b ≤ (ceilDiv a b - 1) * b := by
      have : c ≤ ceilDiv a b - 1 := by omega
      exact mul_le_mul_of_nonneg_right this hb.le
    linarith
  · have : ceilDiv a b * b ≤ (c - 1) * b := by
      have : ceilDiv a b ≤ c - 1 := by omega
      exact mul_le_mul_of_nonneg_right this hb.le
    linarith

/-- C1: under `OUTPUT_PRESERVING` with a valid axis
(`input_extent ≥ 0`, `window_extent ≥ 1`, `stride ≥ 1`), the Dimension
Calculator succeeds with `output_extent = ceil(input_extent / stride)` —
stated by the exact integer characterization
`(output - 1) * stride < input_extent ≤ output * stride` — and with total
padding `pad_before + pad_after =
max 0 ((output - 1) * stride + window_extent - input_extent)`. -/
theorem output_preserving_axis_correct (input window stride : Int)
    (hin : 0 ≤ input) (hw : 1 ≤ window) (hs : 1 ≤ stride) :
    ∃ r : AxisResult,
      GetAxisOutputSize input window stride .OUTPUT_PRESERVING = .ok r ∧
      (r.output_extent - 1) * stride < input ∧
      input ≤ r.output_extent * stride ∧
      r.pad_before + r.pad_after =
        max 0 ((r.output_extent - 1) * stride + window - input) := by
  have hb : (0 : Int) < stride := by omega
  refine ⟨⟨ceilDiv input stride,
    max 0 ((ceilDiv input stride - 1) * stride + window - input) / 2,
    max 0 ((ceilDiv input stride - 1) * stride + window - input) -
      max 0 ((ceilDiv input stride - 1) * stride + window - input) / 2⟩,
    ?_, ceilDiv_lt input stride hb, ceilDiv_le input stride hb, ?_⟩
  · unfold GetAxisOutputSize
    rw [if_neg (by omega)]
  · dsimp only
    omega

/-- C1 witness: the spec's concrete scenario `input = 7`, `window = 3`,
`stride = 2`, `OUTPUT_PRESERVING` gives `output_extent = 4` and total padding
`2` (split `pad_before = 1`, `pad_after = 1`). -/
theorem output_preserving_axis_correct_witness :
    ∃ r : AxisResult,
      GetAxisOutputSize 7 3 2 .OUTPUT_PRESERVING = .ok r ∧
      (r.output_extent - 1) * 2 < 7 ∧
      (7 : Int) ≤ r.output_extent * 2 ∧
      r.pad_before + r.pad_after =
        max 0 ((r.output_extent - 1) * 2 + 3 - 7) :=
  output_preserving_axis_correct 7 3 2 (by decide) (by decide) (by decide)

/-- C2: under `NO_PADDING` with `window_extent ≥ 1`, `stride ≥ 1`: when
`window_extent ≤ input_extent` the Dimension Calculator succeeds with
`output_extent = ceil((input_extent - window_extent + 1) / stride)` — stated
by its exact integer characterization — and both paddings zero; and whenever
the ceiling formula is negative it fails with `InvalidArgument`. -/
theorem no_padding_axis_correct (input window stride : Int)
    (hw : 1 ≤ window) (hs : 1 ≤ stride) :
    (window ≤ input →
      ∃ r : AxisResult,
        GetAxisOutputSize input window stride .NO_PADDING = .ok r ∧
        (r.output_extent - 1) * stride < input - window + 1 ∧
        input - window + 1 ≤ r.output_extent * stride ∧
        r.pad_before = 0 ∧ r.pad_after = 0)
    ∧ (ceilDiv (input - window + 1) stride < 0 →
        GetAxisOutputSize input window stride .NO_PADDING =
          .error .InvalidArgument) := by
  have hb : (0 : Int) < stride := by omega
  constructor
  · intro hwin
    have hpos : 0 ≤ ceilDiv (input - window + 1) stride := by
      by_contra h
      push_neg at h
      have h1 := ceilDiv_le (input - window + 1) stride hb
      have h2 : ceilDiv (input - window + 1) stride * stride ≤ (-1) * stride :=
        mul_le_mul_of_nonneg_right (by omega) hb.le
      omega
    refine ⟨⟨ceilDiv (input - window + 1) stride, 0, 0⟩, ?_,
      ceilDiv_lt _ _ hb, ceilDiv_le _ _ hb, rfl, rfl⟩
    unfold GetAxisOutputSize
    rw [if_neg (by omega)]
    dsimp only
    rw [if_neg (by omega)]
  · intro hneg
    unfold GetAxisOutputSize
    rw [if_neg (by omega)]
    dsimp only
    rw [if_pos hneg]

/-- C2 witness: the spec's concrete scenario `input = 7`, `window = 3`,
`stride = 2`, `NO_PADDING` gives `output_extent = 3` and zero padding. -/
theorem no_padding_axis_correct_witness :
    ((3 : Int) ≤ 7 →
      ∃ r : AxisResult,
        GetAxisOutputSize 7 3 2 .NO_PADDING = .ok r ∧
        (r.output_extent - 1) * 2 < 7 - 3 + 1 ∧
        (7 : Int) - 3 + 1 ≤ r.output_extent * 2 ∧
        r.pad_before = 0 ∧ r.pad_after = 0)
    ∧ (ceilDiv (7 - 3 + 1) 2 < 0 →
        GetAxisOutputSize 7 3 2 .NO_PADDING = .error .InvalidArgument) :=
  no_padding_axis_correct 7 3 2 (by decide) (by decide)

/-- C3: for valid arguments, `GetBroadcastSize` returns
`start_index = max(0, index * stride - pad_size)` and
`size = min(in_size, index * stride - pad_size + ksize) - start_index`,
clamped to `0` when that difference is non-positive. -/
theorem broadcast_size_formula (index in_size ksize stride pad_size : Int)
    (h1 : 0 ≤ index) (h2 : 0 ≤ in_size) (h3 : 1 ≤ ksize) (h4 : 1 ≤ stride)
    (h5 : 0 ≤ pad_size) :
    (GetBroadcastSize index in_size ksize stride pad_size).start_index =
      max 0 (index * stride - pad_size) ∧
    (GetBroadcastSize index in_size ksize stride pad_size).size =
      max 0 (min in_size (index * stride - pad_size + ksize) -
        max 0 (index * stride - pad_size)) := by
  unfold GetBroadcastSize
  dsimp only
  refine ⟨rfl, ?_⟩
  simp only [max_def, min_def]
  split_ifs <;> omega

/-- C3 witness: `index = 3`, `in_size = 7`, `ksize = 3`, `stride = 2`,
`pad_size = 1` gives `start_index = 5` and `size = 2`. -/
theorem broadcast_size_formula_witness :
    (GetBroadcastSize 3 7 3 2 1).start_index = max 0 (3 * 2 - 1) ∧
    (GetBroadcastSize 3 7 3 2 1).size =
      max 0 (min 7 (3 * 2 - 1 + 3) - max 0 (3 * 2 - 1)) :=
  broadcast_size_formula 3 7 3 2 1 (by decide) (by decide) (by decide)
    (by decide) (by decide)

/-- C6: the Broadcast-Size Calculator is total — it never reports a failure
status for any arguments: the returned size is always nonnegative, and when
the clipped window is empty (its clipped end does not exceed its clipped
start, i.e. the window lies outside the input) the result is the valid empty
window `size = 0` rather than an error. -/
theorem broadcast_size_never_fails (index in_size ksize stride pad_size : Int) :
    0 ≤ (GetBroadcastSize index in_size ksize stride pad_size).size ∧
    (min in_size (index * stride - pad_size + ksize) ≤
        max 0 (index * stride - pad_size) →
      (GetBroadcastSize index in_size ksize stride pad_size).size = 0) := by
  unfold GetBroadcastSize
  dsimp only
  constructor
  · split_ifs <;> omega
  · intro h
    rw [if_pos (by omega)]

/-- C6 witness: the out-of-range request `index = 5`, `in_size = 3`,
`ksize = 2`, `stride = 1`, `pad_size = 0` yields the valid empty result
`size = 0`. -/
theorem broadcast_size_never_fails_witness :
    0 ≤ (GetBroadcastSize 5 3 2 1 0).size ∧
    (min (3 : Int) (5 * 1 - 0 + 2) ≤ max 0 (5 * 1 - 0) →
      (GetBroadcastSize 5 3 2 1 0).size = 0) :=
  broadcast_size_never_fails 5 3 2 1 0

/-- C5: a non-positive window or stride is rejected with `InvalidArgument`
under every padding policy, by the single-axis calculator and by both 2-axis
entry points; the result is the bare error, so no output value is produced. -/
theorem invalid_window_or_stride (input window stride : Int)
    (padding : PaddingPolicy) (h : window ≤ 0 ∨ stride ≤ 0) :
    GetAxisOutputSize input window stride padding = .error .InvalidArgument ∧
    (∀ in_width filter_width col_stride : Int,
      Get2dOutputSize input in_width window filter_width stride col_stride
        padding = .error .InvalidArgument) ∧
    (∀ in_width filter_width col_stride : Int,
      Get2dOutputSizeVerbose input in_width window filter_width stride
        col_stride padding = .error .InvalidArgument) := by
  have hax : GetAxisOutputSize input window stride padding =
      .error .InvalidArgument := by
    unfold GetAxisOutputSize
    rw [if_pos h]
  refine ⟨hax, fun a b c => ?_, fun a b c => ?_⟩
  · unfold Get2dOutputSize
    rw [hax]
  · unfold Get2dOutputSizeVerbose
    rw [hax]

/-- C5 witness: `window = 0` (the spec's invalid case) with `input = 7`,
`stride = 2` under `OUTPUT_PRESERVING` is rejected everywhere. -/
theorem invalid_window_or_stride_witness :
    GetAxisOutputSize 7 0 2 .OUTPUT_PRESERVING = .error .InvalidArgument ∧
    (∀ in_width filter_width col_stride : Int,
      Get2dOutputSize 7 in_width 0 filter_width 2 col_stride
        .OUTPUT_PRESERVING = .error .InvalidArgument) ∧
    (∀ in_width filter_width col_stride : Int,
      Get2dOutputSizeVerbose 7 in_width 0 filter_width 2 col_stride
        .OUTPUT_PRESERVING = .error .InvalidArgument) :=
  invalid_window_or_stride 7 0 2 .OUTPUT_PRESERVING (Or.inl (by decide))

/-- In every successful axis result the odd unit of the total padding is
carried by `pad_after`: `pad_after - pad_before = (pad_before + pad_after) % 2`. -/
theorem axis_pad_split (input window stride : Int) (p : PaddingPolicy)
    (r : AxisResult) (h : GetAxisOutputSize input window stride p = .ok r) :
    r.pad_after - r.pad_before = (r.pad_before + r.pad_after) % 2 := by
  unfold GetAxisOutputSize at h
  split at h
  · exact absurd h (by simp)
  · cases p <;> dsimp only at h
    · split at h
      · exact absurd h (by simp)
      · cases h
        dsimp only
        omega
    · cases h
      dsimp only
      omega

/-- C4: whenever the verbose 2-axis form succeeds, each axis's two verbose
paddings sum to that axis's total padding (the `pad_before + pad_after` of
the per-axis computation shared with the compact form), the compact form
succeeds on the same arguments reporting the lower-end paddings
`(pad_top, pad_left)`, and any odd unit of a total is assigned to the
trailing side (`pad_bottom` / `pad_right`). -/
theorem verbose_pad_totals (in_height in_width filter_height filter_width
    row_stride col_stride : Int) (p : PaddingPolicy)
    (nh nw pt pb pl pr : Int)
    (h : Get2dOutputSizeVerbose in_height in_width filter_height filter_width
      row_stride col_stride p = .ok (nh, nw, pt, pb, pl, pr)) :
    ∃ r c : AxisResult,
      GetAxisOutputSize in_height filter_height row_stride p = .ok r ∧
      GetAxisOutputSize in_width filter_width col_stride p = .ok c ∧
      pt + pb = r.pad_before + r.pad_after ∧
      pl + pr = c.pad_before + c.pad_after ∧
      Get2dOutputSize in_height in_width filter_height filter_width
        row_stride col_stride p = .ok (nh, nw, pt, pl) ∧
      pb - pt = (pt + pb) % 2 ∧
      pr - pl = (pl + pr) % 2 := by
  cases hr : GetAxisOutputSize in_height filter_height row_stride p with
  | error e =>
    unfold Get2dOutputSizeVerbose at h
    rw [hr] at h
    exact absurd h (by simp)
  | ok r =>
    cases hc : GetAxisOutputSize in_width filter_width col_stride p with
    | error e =>
      unfold Get2dOutputSizeVerbose at h
      rw [hr, hc] at h
      exact absurd h (by simp)
    | ok c =>
      unfold Get2dOutputSizeVerbose at h
      rw [hr, hc] at h
      simp only [Except.ok.injEq, Prod.mk.injEq] at h
      obtain ⟨h1, h2, h3, h4, h5, h6⟩ := h
      subst h1 h2 h3 h4 h5 h6
      have hsplit_r := axis_pad_split _ _ _ _ _ hr
      have hsplit_c := axis_pad_split _ _ _ _ _ hc
      refine ⟨r, c, rfl, rfl, rfl, rfl, ?_, hsplit_r, hsplit_c⟩
      unfold Get2dOutputSize
      rw [hr, hc]

/-- C4 witness: `in_height = 7`, `in_width = 9`, `filters 3 × 4`, strides
`2`, `OUTPUT_PRESERVING`: verbose paddings `(1, 1, 1, 2)` — row total `2`
split evenly, column total `3` with the odd unit on `pad_right`. -/
theorem verbose_pad_totals_witness :
    ∃ r c : AxisResult,
      GetAxisOutputSize 7 3 2 .OUTPUT_PRESERVING = .ok r ∧
      GetAxisOutputSize 9 4 2 .OUTPUT_PRESERVING = .ok c ∧
      (1 : Int) + 1 = r.pad_before + r.pad_after ∧
      (1 : Int) + 2 = c.pad_before + c.pad_after ∧
      Get2dOutputSize 7 9 3 4 2 2 .OUTPUT_PRESERVING = .ok (4, 5, 1, 1) ∧
      (1 : Int) - 1 = (1 + 1) % 2 ∧
      (2 : Int) - 1 = (1 + 2) % 2 :=
  verbose_pad_totals 7 9 3 4 2 2 .OUTPUT_PRESERVING 4 5 1 1 1 2 (by decide)

/-- C9: the N-dimensional variant rejects input/window/stride sequences of
unequal lengths with `InvalidArgument`, under every policy. -/
theorem nd_length_mismatch (input window strides : List Int)
    (p : PaddingPolicy)
    (h : ¬(input.length = window.length ∧ input.length = strides.length)) :
    GetNdOutputSize input window strides p = .error .InvalidArgument := by
  unfold GetNdOutputSize
  rw [if_neg h]

/-- C9 witness: one input axis against empty window and stride sequences is
rejected. -/
theorem nd_length_mismatch_witness :
    GetNdOutputSize [7] [] [] .OUTPUT_PRESERVING = .error .InvalidArgument :=
  nd_length_mismatch [7] [] [] .OUTPUT_PRESERVING (by decide)

/-- C8: the 3-axis form reproduces, axis by axis, the results of three
independent single-axis compact-form calls with the same policy: it succeeds
exactly when all three axis computations succeed, and then returns their
output extents and their lower-end paddings in order. -/
theorem get3d_matches_axes (i0 i1 i2 w0 w1 w2 s0 s1 s2 : Int)
    (p : PaddingPolicy) (outputs paddings : List Int) :
    Get3dOutputSize (i0, i1, i2) (w0, w1, w2) (s0, s1, s2) p =
        .ok (outputs, paddings) ↔
      ∃ r0 r1 r2 : AxisResult,
        GetAxisOutputSize i0 w0 s0 p = .ok r0 ∧
        GetAxisOutputSize i1 w1 s1 p = .ok r1 ∧
        GetAxisOutputSize i2 w2 s2 p = .ok r2 ∧
        outputs = [r0.output_extent, r1.output_extent, r2.output_extent] ∧
        paddings = [r0.pad_before, r1.pad_before, r2.pad_before] := by
  cases h0 : GetAxisOutputSize i0 w0 s0 p <;>
    cases h1 : GetAxisOutputSize i1 w1 s1 p <;>
    cases h2 : GetAxisOutputSize i2 w2 s2 p <;>
    simp [Get3dOutputSize, GetNdOutputSize, axesResults, h0, h1, h2,
      List.zip, and_assoc, eq_comm]

/-- C8 witness: axes `(7, 9, 5)`, windows `(3, 4, 2)`, strides `(2, 2, 1)`
under `OUTPUT_PRESERVING` give outputs `[4, 5, 5]` and lower-end paddings
`[1, 1, 0]`, matching the three single-axis calls. -/
theorem get3d_matches_axes_witness :
    ∃ r0 r1 r2 : AxisResult,
      GetAxisOutputSize 7 3 2 .OUTPUT_PRESERVING = .ok r0 ∧
      GetAxisOutputSize 9 4 2 .OUTPUT_PRESERVING = .ok r1 ∧
      GetAxisOutputSize 5 2 1 .OUTPUT_PRESERVING = .ok r2 ∧
      [(4 : Int), 5, 5] =
        [r0.output_extent, r1.output_extent, r2.output_extent] ∧
      [(1 : Int), 1, 0] = [r0.pad_before, r1.pad_before, r2.pad_before] :=
  (get3d_matches_axes 7 9 5 3 4 2 2 2 1 .OUTPUT_PRESERVING
    [4, 5, 5] [1, 1, 0]).mp (by decide)

/-- The start index returned by `GetBroadcastSize` is the raw window start
clipped below at `0`. -/
theorem getBroadcastSize_start (index in_size ksize stride pad_size : Int) :
    (GetBroadcastSize index in_size ksize stride pad_size).start_index =
      max 0 (index * stride - pad_size) := rfl

/-- The size returned by `GetBroadcastSize` is the clipped window length,
clamped below at `0`. -/
theorem getBroadcastSize_size (index in_size ksize stride pad_size : Int) :
    (GetBroadcastSize index in_size ksize stride pad_size).size =
      max 0 (min in_size (index * stride - pad_size + ksize) -
        max 0 (index * stride - pad_size)) := by
  unfold GetBroadcastSize
  dsimp only
  simp only [max_def, min_def]
  split_ifs <;> omega

/-- Inversion of a successful `NO_PADDING` axis computation: the window and
stride were positive, the result is the ceiling formula with zero padding,
and the output extent is nonnegative. -/
theorem no_padding_ok_inv (input window stride : Int) (r : AxisResult)
    (h : GetAxisOutputSize input window stride .NO_PADDING = .ok r) :
    1 ≤ window ∧ 1 ≤ stride ∧
    r = ⟨ceilDiv (input - window + 1) stride, 0, 0⟩ ∧
    0 ≤ r.output_extent := by
  unfold GetAxisOutputSize at h
  split at h
  · exact absurd h (by simp)
  · next hvalid =>
    dsimp only at h
    split at h
    · exact absurd h (by simp)
    · next hnneg =>
      cases h
      refine ⟨by omega, by omega, rfl, ?_⟩
      dsimp only
      omega

/-- C7 counterexample: with `input_extent = 7`, `window_extent = stride = 3`
and zero padding (`NO_PADDING`), the forward Dimension Calculator yields
`output_extent = 2`, yet input position `6 ∈ [0, 7)` lies in the window of no
output index: the windows do not exactly tile `[0, input_extent)`. -/
theorem broadcast_tiling_counterexample :
    GetAxisOutputSize 7 3 3 .NO_PADDING = .ok ⟨2, 0, 0⟩ ∧
    (0 : Int) ≤ 6 ∧ (6 : Int) < 7 ∧
    ¬ ∃ j : Int, 0 ≤ j ∧ j < 2 ∧
      (GetBroadcastSize j 7 3 3 0).start_index ≤ 6 ∧
      6 < (GetBroadcastSize j 7 3 3 0).start_index +
        (GetBroadcastSize j 7 3 3 0).size := by
  refine ⟨by decide, by decide, by decide, ?_⟩
  rintro ⟨j, hj0, hj2, h1, h2⟩
  have hj : j = 0 ∨ j = 1 := by omega
  rcases hj with rfl | rfl
  · revert h1 h2
    decide
  · revert h1 h2
    decide

/-- C7 (amended): every window returned by the Broadcast-Size Calculator is
a subset of `[0, input_extent)` when `input_extent ≥ 0`; and when
`stride = window_extent` with zero padding (`NO_PADDING` forward pass,
`pad_size = 0`), the window of each output index `j` is exactly
`[j * stride, (j + 1) * stride)` — so consecutive windows are
non-overlapping and contiguous — and together the windows exactly tile
`[0, output_extent * stride)`, a prefix of `[0, input_extent)` that equals
all of `[0, input_extent)` precisely when `stride` divides `input_extent`. -/
theorem broadcast_subset_and_tiling (index input ksize stride pad_size : Int)
    (r : AxisResult) (hin : 0 ≤ input) :
    (∀ x : Int,
      (GetBroadcastSize index input ksize stride pad_size).start_index ≤ x ∧
      x < (GetBroadcastSize index input ksize stride pad_size).start_index +
          (GetBroadcastSize index input ksize stride pad_size).size →
      0 ≤ x ∧ x < input) ∧
    (stride = ksize →
      GetAxisOutputSize input ksize stride .NO_PADDING = .ok r →
      (∀ j : Int, 0 ≤ j → j < r.output_extent →
        (GetBroadcastSize j input ksize stride 0).start_index = j * stride ∧
        (GetBroadcastSize j input ksize stride 0).size = stride) ∧
      r.output_extent * stride ≤ input ∧
      (∀ x : Int,
        (∃ j : Int, 0 ≤ j ∧ j < r.output_extent ∧
          (GetBroadcastSize j input ksize stride 0).start_index ≤ x ∧
          x < (GetBroadcastSize j input ksize stride 0).start_index +
            (GetBroadcastSize j input ksize stride 0).size) ↔
        0 ≤ x ∧ x < r.output_extent * stride) ∧
      (stride ∣ input → r.output_extent * stride = input)) := by
  constructor
  · intro x hx
    rw [getBroadcastSize_start, getBroadcastSize_size] at hx
    omega
  · intro hsk hok
    subst hsk
    obtain ⟨hw1, hs1, hr, hout_nonneg⟩ := no_padding_ok_inv _ _ _ _ hok
    have hk0 : (0 : Int) < stride := by omega
    have hout : r.output_extent = input / stride := by
      rw [hr]
      show ceilDiv (input - stride + 1) stride = input / stride
      unfold ceilDiv
      congr 1
      ring
    have hdiv1 := Int.ediv_add_emod input stride
    have hdiv2 := Int.emod_nonneg input hk0.ne'
    have hdiv3 := Int.emod_lt_of_pos input hk0
    have hle : r.output_extent * stride ≤ input := by
      rw [hout]
      nlinarith [hdiv1, hdiv2]
    have hwin : ∀ j : Int, 0 ≤ j → j < r.output_extent →
        (GetBroadcastSize j input stride stride 0).start_index = j * stride ∧
        (GetBroadcastSize j input stride stride 0).size = stride := by
      intro j hj0 hj1
      have hA : (0 : Int) ≤ j * stride := mul_nonneg hj0 hk0.le
      have hjk : (j + 1) * stride ≤ r.output_extent * stride :=
        mul_le_mul_of_nonneg_right (by omega) hk0.le
      have hB : j * stride + stride ≤ input := by nlinarith [hjk, hle]
      rw [getBroadcastSize_start, getBroadcastSize_size]
      omega
    refine ⟨hwin, hle, ?_, ?_⟩
    · intro x
      constructor
      · rintro ⟨j, hj0, hj1, hx1, hx2⟩
        obtain ⟨w1, w2⟩ := hwin j hj0 hj1
        rw [w1] at hx1
        rw [w1, w2] at hx2
        have hA : (0 : Int) ≤ j * stride := mul_nonneg hj0 hk0.le
        have hjk : (j + 1) * stride ≤ r.output_extent * stride :=
          mul_le_mul_of_nonneg_right (by omega) hk0.le
        constructor <;> nlinarith
      · rintro ⟨hx0, hx1⟩
        have hj0 : 0 ≤ x / stride := Int.ediv_nonneg hx0 hk0.le
        have hj1 : x / stride < r.output_extent :=
          (Int.ediv_lt_iff_lt_mul hk0).mpr hx1
        obtain ⟨w1, w2⟩ := hwin _ hj0 hj1
        have hx2 := Int.ediv_add_emod x stride
        have hx3 := Int.emod_nonneg x hk0.ne'
        have hx4 := Int.emod_lt_of_pos x hk0
        exact ⟨x / stride, hj0, hj1, by rw [w1]; linarith,
          by rw [w1, w2]; linarith⟩
    · intro hdvd
      rw [hout]
      exact Int.ediv_mul_cancel hdvd

/-- C7 witness: `input = 6`, `window = stride = 3`, `NO_PADDING`: the forward
pass yields `output_extent = 2` and the two windows `[0, 3)` and `[3, 6)`
tile `[0, 6)` exactly (here `3 ∣ 6`). -/
theorem broadcast_subset_and_tiling_witness :
    (∀ x : Int,
      (GetBroadcastSize 0 6 3 3 0).start_index ≤ x ∧
      x < (GetBroadcastSize 0 6 3 3 0).start_index +
          (GetBroadcastSize 0 6 3 3 0).size →
      0 ≤ x ∧ x < 6) ∧
    ((3 : Int) = 3 →
      GetAxisOutputSize 6 3 3 .NO_PADDING =
        .ok (⟨2, 0, 0⟩ : AxisResult) →
      (∀ j : Int, 0 ≤ j → j < (⟨2, 0, 0⟩ : AxisResult).output_extent →
        (GetBroadcastSize j 6 3 3 0).start_index = j * 3 ∧
        (GetBroadcastSize j 6 3 3 0).size = 3) ∧
      (⟨2, 0, 0⟩ : AxisResult).output_extent * 3 ≤ 6 ∧
      (∀ x : Int,
        (∃ j : Int, 0 ≤ j ∧ j < (⟨2, 0, 0⟩ : AxisResult).output_extent ∧
          (GetBroadcastSize j 6 3 3 0).start_index ≤ x ∧
          x < (GetBroadcastSize j 6 3 3 0).start_index +
            (GetBroadcastSize j 6 3 3 0).size) ↔
        0 ≤ x ∧ x < (⟨2, 0, 0⟩ : AxisResult).output_extent * 3) ∧
      ((3 : Int) ∣ 6 → (⟨2, 0, 0⟩ : AxisResult).output_extent * 3 = 6)) :=
  broadcast_subset_and_tiling 0 6 3 3 0 ⟨2, 0, 0⟩ (by decide)

/-- C10: `IsInnerDimsSizeAligned` returns `false` for a rank-0 shape and for
a shape whose dimension 0 has size zero — so the division by `dim0_size` is
always guarded — and otherwise returns `true` exactly when
`(num_elements / dim0_size) * sizeof(T)` is a multiple of the alignment
constant. -/
theorem inner_dims_aligned_correct (sizeofT align : Nat) (s : TensorShape) :
    (s.dims = 0 → IsInnerDimsSizeAligned sizeofT align s = false) ∧
    (s.dim_size 0 = 0 → IsInnerDimsSizeAligned sizeofT align s = false) ∧
    (s.dims ≠ 0 → s.dim_size 0 ≠ 0 →
      (IsInnerDimsSizeAligned sizeofT align s = true ↔
        s.num_elements / s.dim_size 0 * sizeofT % align = 0)) := by
  unfold IsInnerDimsSizeAligned
  refine ⟨fun h => by rw [if_pos h], fun h => ?_, fun h1 h2 => ?_⟩
  · split_ifs <;> simp_all
  · rw [if_neg h1]
    dsimp only
    rw [if_neg h2]
    simp

/-- C10 witness: shape `[5, 4, 2]` with `sizeof(T) = 4` and alignment `16`:
`(40 / 5) * 4 = 32` is a multiple of `16`, so the check returns `true`. -/
theorem inner_dims_aligned_correct_witness :
    ((⟨[5, 4, 2]⟩ : TensorShape).dims = 0 →
      IsInnerDimsSizeAligned 4 16 ⟨[5, 4, 2]⟩ = false) ∧
    ((⟨[5, 4, 2]⟩ : TensorShape).dim_size 0 = 0 →
      IsInnerDimsSizeAligned 4 16 ⟨[5, 4, 2]⟩ = false) ∧
    ((⟨[5, 4, 2]⟩ : TensorShape).dims ≠ 0 →
      (⟨[5, 4, 2]⟩ : TensorShape).dim_size 0 ≠ 0 →
      (IsInnerDimsSizeAligned 4 16 ⟨[5, 4, 2]⟩ = true ↔
        (⟨[5, 4, 2]⟩ : TensorShape).num_elements /
          (⟨[5, 4, 2]⟩ : TensorShape).dim_size 0 * 4 % 16 = 0)) :=
  inner_dims_aligned_correct 4 16 ⟨[5, 4, 2]⟩

end tensorflow
